import Mathlib

/-!
Shallow embedding of the disaster-events repository core:
the cleaning pipeline of `disaster-data-cleaning.py` and the
filter/summary engines of `utils/data_loader.py`.

Conventions of the embedding:
* a pandas cell that may be missing (NaN/NaT) is an `Option`;
* a `datetime64` date is an integer counting days since 1970-01-01;
* integer-valued columns are `ℤ`, floating-point columns are `ℚ`;
* a DataFrame is a `List` of row structures, in row order.
-/

namespace Disasters

/-! ### Calendar arithmetic for the temporal derived fields

Modelled from the spec: the temporal derived columns
(`year`, `month`, `month_name`, `quarter`, `day_of_week`, `week_of_year`)
are produced in `disaster-data-cleaning.py` by the pandas `dt` accessors —
library code that is not part of this repository.  The spec states they are
"all functions of date"; we realise them with the standard proleptic-Gregorian
algorithms over the epoch-day representation.
-/

/-- Civil `(year, month, day)` from days since 1970-01-01
(standard era-based conversion; all inner divisions act on
non-negative operands). -/
def civilFromDays (z0 : ℤ) : ℤ × ℤ × ℤ :=
  let z := z0 + 719468
  let era := Int.fdiv z 146097
  let doe := z - era * 146097
  let yoe := (doe - doe / 1460 + doe / 36524 - doe / 146096) / 365
  let y := yoe + era * 400
  let doy := doe - (365 * yoe + yoe / 4 - yoe / 100)
  let mp := (5 * doy + 2) / 153
  let d := doy - (153 * mp + 2) / 5 + 1
  let m := if mp < 10 then mp + 3 else mp - 9
  (if m ≤ 2 then y + 1 else y, m, d)

/-- Days since 1970-01-01 from a civil `(year, month, day)`. -/
def daysFromCivil (y m d : ℤ) : ℤ :=
  let y1 := if m ≤ 2 then y - 1 else y
  let era := Int.fdiv y1 400
  let yoe := y1 - era * 400
  let mp := if 2 < m then m - 3 else m + 9
  let doy := (153 * mp + 2) / 5 + d - 1
  let doe := yoe * 365 + yoe / 4 - yoe / 100 + doy
  era * 146097 + doe - 719468

/-- `dt.year`. -/
def dtYear (z : ℤ) : ℤ := (civilFromDays z).1

/-- `dt.month`. -/
def dtMonth (z : ℤ) : ℤ := (civilFromDays z).2.1

/-- English month name, as returned by `dt.month_name()`. -/
def monthNameOf (m : ℤ) : String :=
  if m = 1 then "January" else if m = 2 then "February"
  else if m = 3 then "March" else if m = 4 then "April"
  else if m = 5 then "May" else if m = 6 then "June"
  else if m = 7 then "July" else if m = 8 then "August"
  else if m = 9 then "September" else if m = 10 then "October"
  else if m = 11 then "November" else "December"

/-- `dt.month_name()`. -/
def dtMonthName (z : ℤ) : String := monthNameOf (dtMonth z)

/-- `dt.quarter` (month 1-3 ↦ 1, …, month 10-12 ↦ 4). -/
def dtQuarter (z : ℤ) : ℤ := (dtMonth z + 2) / 3

/-- Weekday index with Monday = 0 (1970-01-01 was a Thursday, index 3). -/
def dtWeekday (z : ℤ) : ℤ := Int.emod (z + 3) 7

/-- English day name, as returned by `dt.day_name()`. -/
def dayNameOf (wd : ℤ) : String :=
  if wd = 0 then "Monday" else if wd = 1 then "Tuesday"
  else if wd = 2 then "Wednesday" else if wd = 3 then "Thursday"
  else if wd = 4 then "Friday" else if wd = 5 then "Saturday" else "Sunday"

/-- `dt.day_name()`. -/
def dtDayName (z : ℤ) : String := dayNameOf (dtWeekday z)

/-- ISO week number, as returned by `dt.isocalendar().week`: the week number
of the Thursday of the date's week, inside that Thursday's year. -/
def dtWeekOfYear (z : ℤ) : ℤ :=
  let thu := z + (3 - dtWeekday z)
  (thu - daysFromCivil (dtYear thu) 1 1) / 7 + 1

/-! ### Row structures

`RawRow` is one record of `synthetic_disaster_events_2025.csv` after the
`pd.to_datetime` parse (step 1 of the cleaning script); `TRow` is the frame
after step 2 (temporal features added); `CRow` is the final cleaned frame
(steps 6-9 added the four categorical columns). -/

structure RawRow where
  event_id : Option String
  date : Option ℤ
  disaster_type : Option String
  location : Option String
  latitude : Option ℚ
  longitude : Option ℚ
  severity_level : Option ℤ
  affected_population : Option ℤ
  estimated_economic_loss_usd : Option ℚ
  response_time_hours : Option ℚ
  infrastructure_damage_index : Option ℚ
  aid_provided : Option String
  is_major_disaster : Option ℤ
deriving DecidableEq, Repr

structure TRow extends RawRow where
  year : Option ℤ
  month : Option ℤ
  month_name : Option String
  quarter : Option ℤ
  day_of_week : Option String
  week_of_year : Option ℤ
deriving DecidableEq, Repr

structure CRow extends TRow where
  severity_category : Option String
  economic_impact_category : Option String
  response_category : Option String
  population_impact_category : Option String
deriving DecidableEq, Repr

/-! ### The four bucketing functions of `disaster-data-cleaning.py` -/

/-- `categorize_severity` (lines 55-63). -/
def categorize_severity (severity : ℤ) : String :=
  if severity ≤ 3 then "Low"
  else if severity ≤ 6 then "Medium"
  else if severity ≤ 8 then "High"
  else "Critical"

/-- `categorize_economic_loss` (lines 69-77). -/
def categorize_economic_loss (loss : ℚ) : String :=
  if loss < 1000000 then "Minor (<$1M)"
  else if loss < 10000000 then "Moderate ($1M-$10M)"
  else if loss < 100000000 then "Severe ($10M-$100M)"
  else "Catastrophic (>$100M)"

/-- `categorize_response` (lines 83-91). -/
def categorize_response (hours : ℚ) : String :=
  if hours < 6 then "Immediate (<6h)"
  else if hours < 24 then "Fast (6-24h)"
  else if hours < 72 then "Moderate (24-72h)"
  else "Slow (>72h)"

/-- `categorize_population` (lines 97-105). -/
def categorize_population (pop : ℤ) : String :=
  if pop < 1000 then "Small (<1K)"
  else if pop < 10000 then "Medium (1K-10K)"
  else if pop < 100000 then "Large (10K-100K)"
  else "Very Large (>100K)"

/-! ### The cleaning pipeline (module script, lines 14-111) -/

/-- Step 2: the six temporal derived columns, each the `dt` accessor mapped
over the (possibly missing) date. -/
def addTemporal (r : RawRow) : TRow :=
  { toRawRow := r
    year := r.date.map dtYear
    month := r.date.map dtMonth
    month_name := r.date.map dtMonthName
    quarter := r.date.map dtQuarter
    day_of_week := r.date.map dtDayName
    week_of_year := r.date.map dtWeekOfYear }

/-- `df.dropna()` keeps a row iff no base cell is missing. -/
def rawComplete (r : RawRow) : Bool :=
  r.event_id.isSome && r.date.isSome && r.disaster_type.isSome &&
  r.location.isSome && r.latitude.isSome && r.longitude.isSome &&
  r.severity_level.isSome && r.affected_population.isSome &&
  r.estimated_economic_loss_usd.isSome && r.response_time_hours.isSome &&
  r.infrastructure_damage_index.isSome && r.aid_provided.isSome &&
  r.is_major_disaster.isSome

/-- Step 3 applied to the frame with temporal columns: a row survives
`dropna` iff every cell (base and temporal) is present. -/
def rowComplete (t : TRow) : Bool :=
  rawComplete t.toRawRow &&
  t.year.isSome && t.month.isSome && t.month_name.isSome &&
  t.quarter.isSome && t.day_of_week.isSome && t.week_of_year.isSome

/-- `df['severity_level'] >= 1 & <= 10` (line 43); a missing cell compares
false, as a pandas NaN does. -/
def sevInRangeRaw (r : RawRow) : Bool :=
  match r.severity_level with
  | some s => decide (1 ≤ s) && decide (s ≤ 10)
  | none => false

/-- `df['response_time_hours'] >= 0` (line 45). -/
def respNonnegRaw (r : RawRow) : Bool :=
  match r.response_time_hours with
  | some h => decide (0 ≤ h)
  | none => false

/-- `df['affected_population'] >= 0` (line 47). -/
def popNonnegRaw (r : RawRow) : Bool :=
  match r.affected_population with
  | some p => decide (0 ≤ p)
  | none => false

/-- `df['estimated_economic_loss_usd'] >= 0` (line 49). -/
def lossNonnegRaw (r : RawRow) : Bool :=
  match r.estimated_economic_loss_usd with
  | some l => decide (0 ≤ l)
  | none => false

/-- `df['infrastructure_damage_index'] >= 0 & <= 1` (line 51). -/
def idxInRangeRaw (r : RawRow) : Bool :=
  match r.infrastructure_damage_index with
  | some i => decide (0 ≤ i) && decide (i ≤ 1)
  | none => false

/-- The range masks of step 5 read only base columns of the frame. -/
def sevInRange (t : TRow) : Bool := sevInRangeRaw t.toRawRow

def respNonneg (t : TRow) : Bool := respNonnegRaw t.toRawRow

def popNonneg (t : TRow) : Bool := popNonnegRaw t.toRawRow

def lossNonneg (t : TRow) : Bool := lossNonnegRaw t.toRawRow

def idxInRange (t : TRow) : Bool := idxInRangeRaw t.toRawRow

/-- Steps 6-9: the four categorical columns, each a bucketing function
mapped over its source column. -/
def addCategories (t : TRow) : CRow :=
  { toTRow := t
    severity_category := t.severity_level.map categorize_severity
    economic_impact_category :=
      t.estimated_economic_loss_usd.map categorize_economic_loss
    response_category := t.response_time_hours.map categorize_response
    population_impact_category :=
      t.affected_population.map categorize_population }

/-- `df.drop_duplicates()` with the default `keep='first'`: walk the rows,
keeping a row iff it has not been seen before. -/
def dedupFirstAux {α : Type} [DecidableEq α] (seen : List α) : List α → List α
  | [] => []
  | x :: xs =>
      if x ∈ seen then dedupFirstAux seen xs
      else x :: dedupFirstAux (x :: seen) xs

def drop_duplicates {α : Type} [DecidableEq α] (l : List α) : List α :=
  dedupFirstAux [] l

/-- Step 5's five successive range masks (lines 43-51). -/
def rangeFilterT (l : List TRow) : List TRow :=
  ((((l.filter sevInRange).filter respNonneg).filter popNonneg).filter
    lossNonneg).filter idxInRange

/-- The same five masks read on the base columns only. -/
def rangeFilterRaw (l : List RawRow) : List RawRow :=
  ((((l.filter sevInRangeRaw).filter respNonnegRaw).filter
    popNonnegRaw).filter lossNonnegRaw).filter idxInRangeRaw

/-- The cleaning pipeline of `disaster-data-cleaning.py`, steps 2-9 in the
script's order: temporal features first, then `dropna`, then
`drop_duplicates`, then the five range masks, then the four categorical
columns. -/
def clean_pipeline (raw : List RawRow) : List CRow :=
  (rangeFilterT (drop_duplicates
    ((raw.map addTemporal).filter rowComplete))).map addCategories

/-- The §4.1 algorithm of the spec, which orders the same steps as:
drop missing values, drop duplicates, drop out-of-range rows, and only then
derive the temporal and categorical fields. -/
def spec_order_clean (raw : List RawRow) : List CRow :=
  ((rangeFilterRaw (drop_duplicates
    (raw.filter rawComplete))).map addTemporal).map addCategories

/-- Forgetting the derived columns of a cleaned row ("minus derived
columns"). -/
def CRow.strip (c : CRow) : RawRow := c.toTRow.toRawRow

/-! ### The dashboard side: `utils/data_loader.py`

`Event` is one row of the loaded cleaned dataset (`load_data`), with the
columns that `apply_filters` and `get_summary_stats` read.  The sidebar
widget values of `apply_filters` are reified as an explicit `FilterConfig`,
as the spec's §9 design note prescribes. -/

structure Event where
  date : ℤ
  disaster_type : String
  location : String
  severity_category : String
  aid_provided : String
  is_major_disaster : ℤ
  severity_level : ℤ
  affected_population : ℤ
  estimated_economic_loss_usd : ℚ
  response_time_hours : ℚ
  infrastructure_damage_index : ℚ
deriving DecidableEq, Repr

structure FilterConfig where
  date_start : ℤ
  date_end : ℤ
  disaster_types : List String
  severity_filter : List String
  location_filter : List String
  major_only : Bool
  aid_types : List String
deriving DecidableEq, Repr

/-- The combined boolean mask of `data_loader.py` lines 58-64: date range
(inclusive on both ends) and the three `isin` memberships. -/
def baseMask (cfg : FilterConfig) (e : Event) : Bool :=
  decide (cfg.date_start ≤ e.date) && decide (e.date ≤ cfg.date_end) &&
  cfg.disaster_types.contains e.disaster_type &&
  cfg.severity_filter.contains e.severity_category &&
  cfg.aid_types.contains e.aid_provided

/-- Line 66's guard: the location mask is applied only when `'All'` is not
selected and the selection is non-empty (a Python empty list is falsy). -/
def locActive (cfg : FilterConfig) : Bool :=
  !cfg.location_filter.contains "All" && !cfg.location_filter.isEmpty

/-- Line 67: `df['location'].isin(location_filter)`. -/
def locMask (cfg : FilterConfig) (e : Event) : Bool :=
  cfg.location_filter.contains e.location

/-- Line 70: `df['is_major_disaster'] == 1`. -/
def majorMask (e : Event) : Bool := decide (e.is_major_disaster = 1)

/-- `apply_filters` (lines 58-70): the combined mask, then the conditional
location mask, then the conditional major-only mask. -/
def apply_filters (cfg : FilterConfig) (df : List Event) : List Event :=
  let f1 := df.filter (baseMask cfg)
  let f2 := if locActive cfg then f1.filter (locMask cfg) else f1
  if cfg.major_only then f2.filter majorMask else f2

/-- `apply_filters` with the location predicate omitted (the comparison
point the spec uses for the `'All'` sentinel). -/
def apply_filters_no_location (cfg : FilterConfig) (df : List Event) :
    List Event :=
  let f1 := df.filter (baseMask cfg)
  if cfg.major_only then f1.filter majorMask else f1

/-- The conjunction of all active predicates as one row predicate; an
inactive predicate contributes `true`. -/
def conj_pred (cfg : FilterConfig) (e : Event) : Bool :=
  baseMask cfg e && (!locActive cfg || locMask cfg e) &&
  (!cfg.major_only || majorMask e)

/-- `apply_filters` with the three predicate stages evaluated in the
opposite order (major-only first, then location, then the combined mask). -/
def apply_filters_reordered (cfg : FilterConfig) (df : List Event) :
    List Event :=
  let f1 := if cfg.major_only then df.filter majorMask else df
  let f2 := if locActive cfg then f1.filter (locMask cfg) else f1
  f2.filter (baseMask cfg)

/-! ### The summary engine `get_summary_stats` (lines 87-103) -/

/-- `Series.mean()`: `NaN` (here `none`) on an empty series. -/
def meanQ (l : List ℚ) : Option ℚ :=
  if l.isEmpty then none else some (l.sum / l.length)

/-- Insertion into an ascending-sorted list. -/
def insertSorted (a : ℚ) : List ℚ → List ℚ
  | [] => [a]
  | b :: bs => if a ≤ b then a :: b :: bs else b :: insertSorted a bs

/-- Ascending sort of the values of a series. -/
def sortQ (l : List ℚ) : List ℚ := l.foldr insertSorted []

/-- `Series.median()`: sort; middle element for odd length, average of the
two middle elements for even length, `NaN` (here `none`) when empty. -/
def medianQ (l : List ℚ) : Option ℚ :=
  let s := sortQ l
  let n := s.length
  if n = 0 then none
  else if n % 2 = 1 then some (s.getD (n / 2) 0)
  else some ((s.getD (n / 2 - 1) 0 + s.getD (n / 2) 0) / 2)

/-- `Series.nunique()`: the number of distinct values. -/
def nuniqueStr (l : List String) : ℕ := (drop_duplicates l).length

/-- `(df['date'].max() - df['date'].min()).days`; on an empty frame both
extrema are `NaT` and the day count is `NaN` (here `none`). -/
def date_range_days (df : List Event) : Option ℚ :=
  match df.map (fun e => e.date) with
  | [] => none
  | d :: ds => some ((ds.foldl max d - ds.foldl min d : ℤ) : ℚ)

/-- `get_summary_stats` (lines 87-103): the returned dict, as the ordered
key/value list of its literal; a value is `none` where pandas would return
`NaN`. -/
def get_summary_stats (df : List Event) : List (String × Option ℚ) :=
  [("total_events", some (df.length : ℚ)),
   ("major_disasters",
     some ((df.filter (fun e => decide (e.is_major_disaster = 1))).length : ℚ)),
   ("total_affected",
     some (df.map (fun e => (e.affected_population : ℚ))).sum),
   ("avg_affected", meanQ (df.map (fun e => (e.affected_population : ℚ)))),
   ("total_economic_loss",
     some (df.map (fun e => e.estimated_economic_loss_usd)).sum),
   ("avg_economic_loss",
     meanQ (df.map (fun e => e.estimated_economic_loss_usd))),
   ("avg_response_time", meanQ (df.map (fun e => e.response_time_hours))),
   ("median_response_time",
     medianQ (df.map (fun e => e.response_time_hours))),
   ("avg_severity", meanQ (df.map (fun e => (e.severity_level : ℚ)))),
   ("avg_infrastructure_damage",
     meanQ (df.map (fun e => e.infrastructure_damage_index))),
   ("unique_locations",
     some (nuniqueStr (df.map (fun e => e.location)) : ℚ)),
   ("unique_disaster_types",
     some (nuniqueStr (df.map (fun e => e.disaster_type)) : ℚ)),
   ("date_range_days", date_range_days df)]

/-! ### Derived notions used by the statements -/

/-- The row-dropping part of the pipeline on the base columns alone:
`dropna`, `drop_duplicates`, then the five range masks. -/
def cleanedBase (raw : List RawRow) : List RawRow :=
  rangeFilterRaw (drop_duplicates (raw.filter rawComplete))

/-- The conjunction of the five range invariants of §3, read on a raw row;
a missing cell fails, exactly as a pandas NaN fails every mask. -/
def rawRowValid (r : RawRow) : Bool :=
  sevInRangeRaw r && respNonnegRaw r && popNonnegRaw r &&
  lossNonnegRaw r && idxInRangeRaw r

/-- The §3 data-model invariants on a cleaned row. -/
def cleanedInvariants (c : CRow) : Prop :=
  (∃ s, c.severity_level = some s ∧ 1 ≤ s ∧ s ≤ 10) ∧
  (∃ h, c.response_time_hours = some h ∧ 0 ≤ h) ∧
  (∃ p, c.affected_population = some p ∧ 0 ≤ p) ∧
  (∃ l, c.estimated_economic_loss_usd = some l ∧ 0 ≤ l) ∧
  (∃ i, c.infrastructure_damage_index = some i ∧ 0 ≤ i ∧ i ≤ 1)

/-- The four category label sets, exactly as the strings returned by the
bucketing functions of the cleaning script. -/
def severityLabels : List String := ["Low", "Medium", "High", "Critical"]

def economicLabels : List String :=
  ["Minor (<$1M)", "Moderate ($1M-$10M)", "Severe ($10M-$100M)",
   "Catastrophic (>$100M)"]

def responseLabels : List String :=
  ["Immediate (<6h)", "Fast (6-24h)", "Moderate (24-72h)", "Slow (>72h)"]

def populationLabels : List String :=
  ["Small (<1K)", "Medium (1K-10K)", "Large (10K-100K)", "Very Large (>100K)"]

/-! ### Concrete instances used to instantiate the theorems -/

/-- A raw row satisfying every invariant (date 0 is 1970-01-01). -/
def rvalid : RawRow :=
  { event_id := some "EV1", date := some 0, disaster_type := some "Flood"
    location := some "CityA", latitude := some 10, longitude := some 20
    severity_level := some 2, affected_population := some 500
    estimated_economic_loss_usd := some 500000, response_time_hours := some 3
    infrastructure_damage_index := some 0, aid_provided := some "Medical"
    is_major_disaster := some 0 }

/-- A raw row violating the severity range invariant. -/
def rbad : RawRow := { rvalid with event_id := some "EV2", severity_level := some 11 }

/-- A two-row raw input: one valid row, one out-of-range row. -/
def rawEx : List RawRow := [rvalid, rbad]

/-- One cleaned-dataset row for the filter-engine instances. -/
def ev0 : Event :=
  { date := 0, disaster_type := "Flood", location := "CityA"
    severity_category := "Low", aid_provided := "Medical"
    is_major_disaster := 0, severity_level := 2, affected_population := 500
    estimated_economic_loss_usd := 1000, response_time_hours := 3
    infrastructure_damage_index := 0 }

/-- A filter configuration whose location selection is empty and whose other
selections match `ev0`. -/
def cfgEmptyLoc : FilterConfig :=
  { date_start := 0, date_end := 10, disaster_types := ["Flood"]
    severity_filter := ["Low"], location_filter := [], major_only := false
    aid_types := ["Medical"] }

/-- A configuration with every set-valued selection empty. -/
def cfgAllEmpty : FilterConfig :=
  { cfgEmptyLoc with disaster_types := [], severity_filter := [], aid_types := [] }

/-- A configuration selecting the `'All'` location sentinel. -/
def cfgAllLoc : FilterConfig := { cfgEmptyLoc with location_filter := ["All"] }

/-- Three cleaned-dataset rows for the summary-engine instances
(affected populations 3, 5, 1000, whose median is 5). -/
def evA : Event :=
  { date := 0, disaster_type := "Flood", location := "A"
    severity_category := "High", aid_provided := "Medical"
    is_major_disaster := 0, severity_level := 7, affected_population := 3
    estimated_economic_loss_usd := 10, response_time_hours := 1
    infrastructure_damage_index := 0 }

def evB : Event :=
  { evA with
    date := 10
    location := "B"
    severity_level := 8
    affected_population := 5
    estimated_economic_loss_usd := 20
    response_time_hours := 2 }

def evC : Event :=
  { evA with
    date := 20
    disaster_type := "Quake"
    location := "C"
    severity_level := 9
    affected_population := 1000
    estimated_economic_loss_usd := 30
    response_time_hours := 6 }

def exSummary : List Event := [evA, evB, evC]

/-! ### Lemmas about keep-first deduplication -/

theorem dedupFirstAux_sublist {α : Type} [DecidableEq α] (seen l) :
    (dedupFirstAux (α := α) seen l).Sublist l := by
  induction l generalizing seen with
  | nil => exact List.Sublist.refl _
  | cons x xs ih =>
      simp only [dedupFirstAux]
      split
      · exact (ih seen).trans (List.sublist_cons_self x xs)
      · exact (ih (x :: seen)).cons₂ x

theorem mem_dedupFirstAux {α : Type} [DecidableEq α] {a : α} (seen l) :
    a ∈ dedupFirstAux seen l ↔ a ∈ l ∧ a ∉ seen := by
  induction l generalizing seen with
  | nil => simp [dedupFirstAux]
  | cons x xs ih =>
      simp only [dedupFirstAux]
      split
      · next hx =>
          rw [ih]
          constructor
          · rintro ⟨h1, h2⟩
            exact ⟨List.mem_cons_of_mem x h1, h2⟩
          · rintro ⟨h1, h2⟩
            rcases List.mem_cons.mp h1 with h | h
            · exact absurd (h ▸ hx) h2
            · exact ⟨h, h2⟩
      · next hx =>
          simp only [List.mem_cons, ih (x :: seen)]
          constructor
          · rintro (rfl | ⟨h1, h2⟩)
            · exact ⟨Or.inl rfl, hx⟩
            · exact ⟨Or.inr h1, fun hs => h2 (Or.inr hs)⟩
          · rintro ⟨rfl | h1, h2⟩
            · exact Or.inl rfl
            · by_cases hax : a = x
              · exact Or.inl hax
              · refine Or.inr ⟨h1, fun hs => ?_⟩
                rcases hs with h | h
                · exact hax h
                · exact h2 h

theorem nodup_dedupFirstAux {α : Type} [DecidableEq α] (seen l) :
    (dedupFirstAux (α := α) seen l).Nodup := by
  induction l generalizing seen with
  | nil => exact List.nodup_nil
  | cons x xs ih =>
      simp only [dedupFirstAux]
      split
      · exact ih seen
      · refine List.nodup_cons.mpr ⟨fun hx => ?_, ih (x :: seen)⟩
        exact ((mem_dedupFirstAux _ _).mp hx).2 (List.mem_cons_self x seen)

theorem dedupFirstAux_eq_self {α : Type} [DecidableEq α] :
    ∀ (l seen : List α), List.Nodup l → (∀ a ∈ l, a ∉ seen) →
      dedupFirstAux seen l = l
  | [], _, _, _ => rfl
  | x :: xs, seen, hn, hd => by
      obtain ⟨hx, hxs⟩ := List.nodup_cons.mp hn
      simp only [dedupFirstAux]
      rw [if_neg (hd x (List.mem_cons_self x xs))]
      congr 1
      refine dedupFirstAux_eq_self xs (x :: seen) hxs (fun a ha hs => ?_)
      rcases List.mem_cons.mp hs with h | h
      · exact hx (h ▸ ha)
      · exact hd a (List.mem_cons_of_mem x ha) h

theorem dedupFirstAux_map {α β : Type} [DecidableEq α] [DecidableEq β]
    {f : α → β} (hf : Function.Injective f) (seen l) :
    dedupFirstAux (seen.map f) (l.map f) = (dedupFirstAux seen l).map f := by
  induction l generalizing seen with
  | nil => rfl
  | cons x xs ih =>
      simp only [List.map_cons, dedupFirstAux]
      by_cases hx : x ∈ seen
      · rw [if_pos ((List.mem_map_of_injective hf).mpr hx), if_pos hx, ih]
      · rw [if_neg (fun h => hx ((List.mem_map_of_injective hf).mp h)),
          if_neg hx, List.map_cons]
        congr 1
        exact ih (x :: seen)

theorem drop_duplicates_sublist {α : Type} [DecidableEq α] (l : List α) :
    (drop_duplicates l).Sublist l :=
  dedupFirstAux_sublist [] l

theorem mem_drop_duplicates {α : Type} [DecidableEq α] {a : α} (l : List α) :
    a ∈ drop_duplicates l ↔ a ∈ l := by
  rw [drop_duplicates, mem_dedupFirstAux]
  simp

theorem nodup_drop_duplicates {α : Type} [DecidableEq α] (l : List α) :
    (drop_duplicates l).Nodup :=
  nodup_dedupFirstAux [] l

theorem drop_duplicates_eq_self {α : Type} [DecidableEq α] {l : List α}
    (hn : List.Nodup l) : drop_duplicates l = l :=
  dedupFirstAux_eq_self l [] hn (by simp)

theorem drop_duplicates_map {α β : Type} [DecidableEq α] [DecidableEq β]
    {f : α → β} (hf : Function.Injective f) (l : List α) :
    drop_duplicates (l.map f) = (drop_duplicates l).map f :=
  dedupFirstAux_map hf [] l

/-! ### Structural lemmas about the cleaning pipeline -/

theorem addTemporal_toRawRow (r : RawRow) : (addTemporal r).toRawRow = r := rfl

theorem addTemporal_injective : Function.Injective addTemporal :=
  Function.LeftInverse.injective (g := TRow.toRawRow) addTemporal_toRawRow

theorem rowComplete_addTemporal (r : RawRow) :
    rowComplete (addTemporal r) = rawComplete r := by
  cases hd : r.date with
  | none =>
      simp [rowComplete, addTemporal, rawComplete, hd]
  | some z =>
      simp [rowComplete, addTemporal, rawComplete, hd]

theorem rangeFilterT_map (l : List RawRow) :
    rangeFilterT (l.map addTemporal) = (rangeFilterRaw l).map addTemporal := by
  simp only [rangeFilterT, rangeFilterRaw, List.filter_map]
  rfl

theorem clean_eq_spec_order (raw : List RawRow) :
    clean_pipeline raw = spec_order_clean raw := by
  unfold clean_pipeline spec_order_clean
  rw [List.filter_map]
  simp only [Function.comp_def]
  rw [List.filter_congr (fun r _ => rowComplete_addTemporal r),
    drop_duplicates_map addTemporal_injective, rangeFilterT_map]

theorem spec_order_clean_eq_base (raw : List RawRow) :
    spec_order_clean raw = ((cleanedBase raw).map addTemporal).map addCategories :=
  rfl

theorem rangeFilterRaw_sublist (l : List RawRow) :
    (rangeFilterRaw l).Sublist l :=
  ((((List.filter_sublist _).trans (List.filter_sublist _)).trans
    (List.filter_sublist _)).trans (List.filter_sublist _)).trans
    (List.filter_sublist _)

theorem mem_rangeFilterRaw {r : RawRow} {l : List RawRow}
    (hr : r ∈ rangeFilterRaw l) :
    r ∈ l ∧ sevInRangeRaw r = true ∧ respNonnegRaw r = true ∧
    popNonnegRaw r = true ∧ lossNonnegRaw r = true ∧ idxInRangeRaw r = true := by
  unfold rangeFilterRaw at hr
  simp only [List.mem_filter] at hr
  exact ⟨hr.1.1.1.1.1, hr.1.1.1.1.2, hr.1.1.1.2, hr.1.1.2, hr.1.2, hr.2⟩

theorem rangeFilterRaw_eq_self {l : List RawRow}
    (h : ∀ r ∈ l, rawRowValid r = true) : rangeFilterRaw l = l := by
  have h5 : ∀ r ∈ l, sevInRangeRaw r = true ∧ respNonnegRaw r = true ∧
      popNonnegRaw r = true ∧ lossNonnegRaw r = true ∧ idxInRangeRaw r = true := by
    intro r hr
    have := h r hr
    simp only [rawRowValid, Bool.and_eq_true] at this
    exact ⟨this.1.1.1.1, this.1.1.1.2, this.1.1.2, this.1.2, this.2⟩
  unfold rangeFilterRaw
  rw [List.filter_eq_self.mpr (fun a ha => (h5 a ha).1),
    List.filter_eq_self.mpr (fun a ha => (h5 a ha).2.1),
    List.filter_eq_self.mpr (fun a ha => (h5 a ha).2.2.1),
    List.filter_eq_self.mpr (fun a ha => (h5 a ha).2.2.2.1),
    List.filter_eq_self.mpr (fun a ha => (h5 a ha).2.2.2.2)]

theorem mem_cleanedBase {r : RawRow} {raw : List RawRow}
    (hr : r ∈ cleanedBase raw) :
    r ∈ raw ∧ rawComplete r = true ∧ rawRowValid r = true := by
  unfold cleanedBase at hr
  obtain ⟨hd, h1, h2, h3, h4, h5⟩ := mem_rangeFilterRaw hr
  rw [mem_drop_duplicates, List.mem_filter] at hd
  refine ⟨hd.1, hd.2, ?_⟩
  simp only [rawRowValid, Bool.and_eq_true]
  exact ⟨⟨⟨⟨h1, h2⟩, h3⟩, h4⟩, h5⟩

theorem cleanedBase_sublist (raw : List RawRow) :
    (cleanedBase raw).Sublist raw :=
  (rangeFilterRaw_sublist _).trans
    ((drop_duplicates_sublist _).trans (List.filter_sublist _))

theorem cleanedBase_nodup (raw : List RawRow) : (cleanedBase raw).Nodup :=
  List.Nodup.sublist (rangeFilterRaw_sublist _) (nodup_drop_duplicates _)

theorem cleanedBase_idem (raw : List RawRow) :
    cleanedBase (cleanedBase raw) = cleanedBase raw := by
  have hmem : ∀ r ∈ cleanedBase raw,
      r ∈ raw ∧ rawComplete r = true ∧ rawRowValid r = true :=
    fun r hr => mem_cleanedBase hr
  show rangeFilterRaw (drop_duplicates
    ((cleanedBase raw).filter rawComplete)) = cleanedBase raw
  rw [List.filter_eq_self.mpr (fun a ha => (hmem a ha).2.1),
    drop_duplicates_eq_self (cleanedBase_nodup raw)]
  exact rangeFilterRaw_eq_self (fun r hr => (hmem r hr).2.2)

theorem strip_clean_pipeline (raw : List RawRow) :
    (clean_pipeline raw).map CRow.strip = cleanedBase raw := by
  rw [clean_eq_spec_order, spec_order_clean_eq_base, List.map_map,
    List.map_map]
  exact (List.map_congr_left (fun r _ => rfl)).trans (List.map_id _)

/-! ### Structural lemmas about the filter engine -/

theorem apply_filters_eq_filter (cfg : FilterConfig) (df : List Event) :
    apply_filters cfg df = df.filter (conj_pred cfg) := by
  cases hl : locActive cfg <;> cases hm : cfg.major_only <;>
    simp only [apply_filters, hl, hm, Bool.false_eq_true, if_false, if_true,
      List.filter_filter]
  all_goals
    exact List.filter_congr (fun e _ => by
      simp only [conj_pred, hl, hm, Bool.not_true, Bool.not_false,
        Bool.false_or, Bool.true_or, Bool.and_true]
      all_goals cases baseMask cfg e <;> cases locMask cfg e <;>
        cases majorMask e <;> rfl)

theorem apply_filters_reordered_eq (cfg : FilterConfig) (df : List Event) :
    apply_filters_reordered cfg df = df.filter (conj_pred cfg) := by
  cases hl : locActive cfg <;> cases hm : cfg.major_only <;>
    simp only [apply_filters_reordered, hl, hm, Bool.false_eq_true, if_false,
      if_true, List.filter_filter]
  all_goals
    exact List.filter_congr (fun e _ => by
      simp only [conj_pred, hl, hm, Bool.not_true, Bool.not_false,
        Bool.false_or, Bool.true_or, Bool.and_true]
      all_goals cases baseMask cfg e <;> cases locMask cfg e <;>
        cases majorMask e <;> rfl)

theorem baseMask_false_of_empty {cfg : FilterConfig}
    (h : cfg.disaster_types = [] ∨ cfg.severity_filter = [] ∨
      cfg.aid_types = []) (e : Event) : baseMask cfg e = false := by
  rcases h with h | h | h <;> simp [baseMask, h]

theorem apply_filters_of_base_false {cfg : FilterConfig} {df : List Event}
    (h : ∀ e, baseMask cfg e = false) : apply_filters cfg df = [] := by
  have h0 : df.filter (baseMask cfg) = [] :=
    (List.filter_congr (fun e _ => h e)).trans (List.filter_false df)
  simp [apply_filters, h0]

theorem locActive_false_of_empty {cfg : FilterConfig}
    (h : cfg.location_filter = []) : locActive cfg = false := by
  simp [locActive, h]

theorem locActive_false_of_all {cfg : FilterConfig}
    (h : "All" ∈ cfg.location_filter) : locActive cfg = false := by
  have hc : cfg.location_filter.contains "All" = true :=
    List.elem_eq_true_of_mem h
  unfold locActive
  rw [hc]
  rfl

theorem apply_filters_of_loc_inactive {cfg : FilterConfig} {df : List Event}
    (h : locActive cfg = false) :
    apply_filters cfg df = apply_filters_no_location cfg df := by
  simp [apply_filters, apply_filters_no_location, h]

/-! ### Reading the range masks back as propositions -/

theorem sevInRangeRaw_spec {r : RawRow} (h : sevInRangeRaw r = true) :
    ∃ s, r.severity_level = some s ∧ 1 ≤ s ∧ s ≤ 10 := by
  unfold sevInRangeRaw at h
  cases hs : r.severity_level with
  | none => rw [hs] at h; cases h
  | some s =>
      rw [hs] at h
      simp only [Bool.and_eq_true, decide_eq_true_eq] at h
      exact ⟨s, rfl, h.1, h.2⟩

theorem respNonnegRaw_spec {r : RawRow} (h : respNonnegRaw r = true) :
    ∃ x, r.response_time_hours = some x ∧ 0 ≤ x := by
  unfold respNonnegRaw at h
  cases hs : r.response_time_hours with
  | none => rw [hs] at h; cases h
  | some x =>
      rw [hs] at h
      simp only [decide_eq_true_eq] at h
      exact ⟨x, rfl, h⟩

theorem popNonnegRaw_spec {r : RawRow} (h : popNonnegRaw r = true) :
    ∃ p, r.affected_population = some p ∧ 0 ≤ p := by
  unfold popNonnegRaw at h
  cases hs : r.affected_population with
  | none => rw [hs] at h; cases h
  | some p =>
      rw [hs] at h
      simp only [decide_eq_true_eq] at h
      exact ⟨p, rfl, h⟩

theorem lossNonnegRaw_spec {r : RawRow} (h : lossNonnegRaw r = true) :
    ∃ x, r.estimated_economic_loss_usd = some x ∧ 0 ≤ x := by
  unfold lossNonnegRaw at h
  cases hs : r.estimated_economic_loss_usd with
  | none => rw [hs] at h; cases h
  | some x =>
      rw [hs] at h
      simp only [decide_eq_true_eq] at h
      exact ⟨x, rfl, h⟩

theorem idxInRangeRaw_spec {r : RawRow} (h : idxInRangeRaw r = true) :
    ∃ x, r.infrastructure_damage_index = some x ∧ 0 ≤ x ∧ x ≤ 1 := by
  unfold idxInRangeRaw at h
  cases hs : r.infrastructure_damage_index with
  | none => rw [hs] at h; cases h
  | some x =>
      rw [hs] at h
      simp only [Bool.and_eq_true, decide_eq_true_eq] at h
      exact ⟨x, rfl, h.1, h.2⟩

theorem rawRowValid_split {r : RawRow} (h : rawRowValid r = true) :
    sevInRangeRaw r = true ∧ respNonnegRaw r = true ∧ popNonnegRaw r = true ∧
    lossNonnegRaw r = true ∧ idxInRangeRaw r = true := by
  simp only [rawRowValid, Bool.and_eq_true] at h
  exact ⟨h.1.1.1.1, h.1.1.1.2, h.1.1.2, h.1.2, h.2⟩

/-! ### Codomains of the bucketing functions -/

theorem categorize_severity_mem (s : ℤ) :
    categorize_severity s ∈ severityLabels := by
  unfold categorize_severity severityLabels
  split_ifs <;> simp

theorem categorize_economic_loss_mem (x : ℚ) :
    categorize_economic_loss x ∈ economicLabels := by
  unfold categorize_economic_loss economicLabels
  split_ifs <;> simp

theorem categorize_response_mem (x : ℚ) :
    categorize_response x ∈ responseLabels := by
  unfold categorize_response responseLabels
  split_ifs <;> simp

theorem categorize_population_mem (p : ℤ) :
    categorize_population p ∈ populationLabels := by
  unfold categorize_population populationLabels
  split_ifs <;> simp

/-! ### Lemmas about the summary engine -/

theorem sum_map_eq_manual {α : Type} (f : α → ℚ) (l : List α) :
    (l.map f).sum = l.foldr (fun e acc => f e + acc) 0 := by
  induction l with
  | nil => rfl
  | cons x xs ih => simp [ih]

/-! ## The claims -/

/-- C1: every row of the Cleaner's output satisfies the §3 range invariants
(severity_level ∈ [1,10], response_time_hours ≥ 0, affected_population ≥ 0,
estimated_economic_loss_usd ≥ 0, infrastructure_damage_index ∈ [0,1]); the
output rows with the derived columns removed are a subsequence of the raw
input, so no surviving row is repaired or altered; and an input row
violating one of the invariants never appears in the output. -/
theorem cleaner_invariant_preservation (raw : List RawRow) :
    (∀ c ∈ clean_pipeline raw, cleanedInvariants c) ∧
    ((clean_pipeline raw).map CRow.strip).Sublist raw ∧
    (∀ r ∈ raw, rawRowValid r = false →
      r ∉ (clean_pipeline raw).map CRow.strip) := by
  refine ⟨?_, ?_, ?_⟩
  · intro c hc
    rw [clean_eq_spec_order, spec_order_clean_eq_base, List.mem_map] at hc
    obtain ⟨t, ht, rfl⟩ := hc
    rw [List.mem_map] at ht
    obtain ⟨r, hr, rfl⟩ := ht
    obtain ⟨h1, h2, h3, h4, h5⟩ := rawRowValid_split (mem_cleanedBase hr).2.2
    exact ⟨sevInRangeRaw_spec h1, respNonnegRaw_spec h2, popNonnegRaw_spec h3,
      lossNonnegRaw_spec h4, idxInRangeRaw_spec h5⟩
  · rw [strip_clean_pipeline]
    exact cleanedBase_sublist raw
  · intro r _ hinvalid hmem
    rw [strip_clean_pipeline] at hmem
    exact absurd (mem_cleanedBase hmem).2.2 (by rw [hinvalid]; exact fun h => nomatch h)

/-- Witness for C1 at the concrete input `rawEx`: the valid row survives
cleaning with its invariants intact, and the out-of-range row is gone. -/
theorem cleaner_invariant_preservation_witness :
    cleanedInvariants (addCategories (addTemporal rvalid)) ∧
    rbad ∉ (clean_pipeline rawEx).map CRow.strip :=
  ⟨(cleaner_invariant_preservation rawEx).1
      (addCategories (addTemporal rvalid)) (by decide),
   (cleaner_invariant_preservation rawEx).2.2 rbad (by decide) (by decide)⟩

/-- C2: `categorize_severity` maps every severity ≤ 3 to Low, 4..6 to
Medium, 7..8 to High, and ≥ 9 to Critical; in particular 3 ↦ Low,
4 and 6 ↦ Medium, 7 and 8 ↦ High, 9 ↦ Critical. -/
theorem severity_bucket_boundaries (s : ℤ) :
    (s ≤ 3 → categorize_severity s = "Low") ∧
    (4 ≤ s → s ≤ 6 → categorize_severity s = "Medium") ∧
    (7 ≤ s → s ≤ 8 → categorize_severity s = "High") ∧
    (9 ≤ s → categorize_severity s = "Critical") ∧
    categorize_severity 3 = "Low" ∧ categorize_severity 4 = "Medium" ∧
    categorize_severity 6 = "Medium" ∧ categorize_severity 7 = "High" ∧
    categorize_severity 8 = "High" ∧ categorize_severity 9 = "Critical" := by
  refine ⟨fun h => ?_, fun h4 h6 => ?_, fun h7 h8 => ?_, fun h9 => ?_,
    by decide, by decide, by decide, by decide, by decide, by decide⟩
  · unfold categorize_severity
    rw [if_pos h]
  · unfold categorize_severity
    rw [if_neg (by omega), if_pos h6]
  · unfold categorize_severity
    rw [if_neg (by omega), if_neg (by omega), if_pos h8]
  · unfold categorize_severity
    rw [if_neg (by omega), if_neg (by omega), if_neg (by omega)]

/-- Witness for C2: instances of each of the four severity buckets. -/
theorem severity_bucket_boundaries_witness :
    categorize_severity 2 = "Low" ∧ categorize_severity 5 = "Medium" ∧
    categorize_severity 7 = "High" ∧ categorize_severity 10 = "Critical" :=
  ⟨(severity_bucket_boundaries 2).1 (by decide),
   (severity_bucket_boundaries 5).2.1 (by decide) (by decide),
   (severity_bucket_boundaries 7).2.2.1 (by decide) (by decide),
   (severity_bucket_boundaries 10).2.2.2.1 (by decide)⟩

/-- C3: the economic-loss, response-time, and population bucketing functions
use strict upper thresholds; in particular loss 999,999 ↦ Minor and
1,000,000 ↦ Moderate, response 5.9 ↦ Immediate and 6.0 ↦ Fast,
population 999 ↦ Small and 1000 ↦ Medium. -/
theorem strict_threshold_buckets :
    (∀ loss : ℚ,
      (loss < 1000000 → categorize_economic_loss loss = "Minor (<$1M)") ∧
      (1000000 ≤ loss → loss < 10000000 →
        categorize_economic_loss loss = "Moderate ($1M-$10M)") ∧
      (10000000 ≤ loss → loss < 100000000 →
        categorize_economic_loss loss = "Severe ($10M-$100M)") ∧
      (100000000 ≤ loss →
        categorize_economic_loss loss = "Catastrophic (>$100M)")) ∧
    (∀ hours : ℚ,
      (hours < 6 → categorize_response hours = "Immediate (<6h)") ∧
      (6 ≤ hours → hours < 24 → categorize_response hours = "Fast (6-24h)") ∧
      (24 ≤ hours → hours < 72 →
        categorize_response hours = "Moderate (24-72h)") ∧
      (72 ≤ hours → categorize_response hours = "Slow (>72h)")) ∧
    (∀ pop : ℤ,
      (pop < 1000 → categorize_population pop = "Small (<1K)") ∧
      (1000 ≤ pop → pop < 10000 →
        categorize_population pop = "Medium (1K-10K)") ∧
      (10000 ≤ pop → pop < 100000 →
        categorize_population pop = "Large (10K-100K)") ∧
      (100000 ≤ pop → categorize_population pop = "Very Large (>100K)")) ∧
    categorize_economic_loss 999999 = "Minor (<$1M)" ∧
    categorize_economic_loss 1000000 = "Moderate ($1M-$10M)" ∧
    categorize_response (59/10) = "Immediate (<6h)" ∧
    categorize_response 6 = "Fast (6-24h)" ∧
    categorize_population 999 = "Small (<1K)" ∧
    categorize_population 1000 = "Medium (1K-10K)" := by
  refine ⟨fun loss => ⟨fun h => ?_, fun ha hb => ?_, fun ha hb => ?_,
      fun h => ?_⟩,
    fun hours => ⟨fun h => ?_, fun ha hb => ?_, fun ha hb => ?_, fun h => ?_⟩,
    fun pop => ⟨fun h => ?_, fun ha hb => ?_, fun ha hb => ?_, fun h => ?_⟩,
    by decide, by decide, by norm_num [categorize_response], by decide,
    by decide, by decide⟩
  · unfold categorize_economic_loss
    rw [if_pos h]
  · unfold categorize_economic_loss
    rw [if_neg (by linarith), if_pos hb]
  · unfold categorize_economic_loss
    rw [if_neg (by linarith), if_neg (by linarith), if_pos hb]
  · unfold categorize_economic_loss
    rw [if_neg (by linarith), if_neg (by linarith), if_neg (by linarith)]
  · unfold categorize_response
    rw [if_pos h]
  · unfold categorize_response
    rw [if_neg (by linarith), if_pos hb]
  · unfold categorize_response
    rw [if_neg (by linarith), if_neg (by linarith), if_pos hb]
  · unfold categorize_response
    rw [if_neg (by linarith), if_neg (by linarith), if_neg (by linarith)]
  · unfold categorize_population
    rw [if_pos h]
  · unfold categorize_population
    rw [if_neg (by omega), if_pos hb]
  · unfold categorize_population
    rw [if_neg (by omega), if_neg (by omega), if_pos hb]
  · unfold categorize_population
    rw [if_neg (by omega), if_neg (by omega), if_neg (by omega)]

/-- Witness for C3: one mid-bucket instance of each function. -/
theorem strict_threshold_buckets_witness :
    categorize_economic_loss 5000000 = "Moderate ($1M-$10M)" ∧
    categorize_response 30 = "Moderate (24-72h)" ∧
    categorize_population 50000 = "Large (10K-100K)" :=
  ⟨(strict_threshold_buckets.1 5000000).2.1 (by norm_num) (by norm_num),
   (strict_threshold_buckets.2.1 30).2.2.1 (by norm_num) (by norm_num),
   (strict_threshold_buckets.2.2.1 50000).2.2.1 (by decide) (by decide)⟩

/-- C4 counterexample: with an empty location selection (and every other
dimension matching), `apply_filters` returns the row rather than no rows —
line 66's `and location_filter` guard makes an empty location selection
disable the location predicate, exactly like the `'All'` sentinel, instead
of matching nothing. -/
theorem empty_location_matches_all_rows :
    cfgEmptyLoc.location_filter = [] ∧
    apply_filters cfgEmptyLoc [ev0] = [ev0] :=
  ⟨rfl, by decide⟩

/-- C4 (amended): an empty selection on disaster types, severity categories,
or aid types matches no rows; on location, an empty selection — like any
selection containing the `'All'` sentinel — disables the location predicate,
so filtering returns exactly the rows obtained with the location predicate
omitted. -/
theorem filter_empty_dimension_semantics (cfg : FilterConfig)
    (df : List Event) :
    (cfg.disaster_types = [] → apply_filters cfg df = []) ∧
    (cfg.severity_filter = [] → apply_filters cfg df = []) ∧
    (cfg.aid_types = [] → apply_filters cfg df = []) ∧
    (cfg.location_filter = [] →
      apply_filters cfg df = apply_filters_no_location cfg df) ∧
    ("All" ∈ cfg.location_filter →
      apply_filters cfg df = apply_filters_no_location cfg df) := by
  refine ⟨fun h => ?_, fun h => ?_, fun h => ?_, fun h => ?_, fun h => ?_⟩
  · exact apply_filters_of_base_false (baseMask_false_of_empty (Or.inl h))
  · exact apply_filters_of_base_false
      (baseMask_false_of_empty (Or.inr (Or.inl h)))
  · exact apply_filters_of_base_false
      (baseMask_false_of_empty (Or.inr (Or.inr h)))
  · exact apply_filters_of_loc_inactive (locActive_false_of_empty h)
  · exact apply_filters_of_loc_inactive (locActive_false_of_all h)

/-- Witness for C4 (amended), discharging each of the five hypotheses at
concrete configurations and datasets. -/
theorem filter_empty_dimension_semantics_witness :
    apply_filters cfgAllEmpty [ev0] = [] ∧
    apply_filters cfgAllEmpty [] = [] ∧
    apply_filters cfgAllEmpty [ev0, ev0] = [] ∧
    apply_filters cfgEmptyLoc [ev0] =
      apply_filters_no_location cfgEmptyLoc [ev0] ∧
    apply_filters cfgAllLoc [ev0] =
      apply_filters_no_location cfgAllLoc [ev0] :=
  ⟨(filter_empty_dimension_semantics cfgAllEmpty [ev0]).1 rfl,
   (filter_empty_dimension_semantics cfgAllEmpty []).2.1 rfl,
   (filter_empty_dimension_semantics cfgAllEmpty [ev0, ev0]).2.2.1 rfl,
   (filter_empty_dimension_semantics cfgEmptyLoc [ev0]).2.2.2.1 rfl,
   (filter_empty_dimension_semantics cfgAllLoc [ev0]).2.2.2.2 (by decide)⟩

/-- C5: for every dataset and configuration, `apply_filters` returns a
subsequence of its input (rows kept in original order); it is idempotent on
its own output; and it equals the single filter by the conjunction of the
active predicates, so the evaluation order of the predicate stages is
invisible (the fully reversed stage order returns the same rows). -/
theorem filter_conjunction_algebra (cfg : FilterConfig) (df : List Event) :
    (apply_filters cfg df).Sublist df ∧
    apply_filters cfg (apply_filters cfg df) = apply_filters cfg df ∧
    apply_filters cfg df = df.filter (conj_pred cfg) ∧
    apply_filters_reordered cfg df = apply_filters cfg df := by
  refine ⟨?_, ?_, apply_filters_eq_filter cfg df, ?_⟩
  · rw [apply_filters_eq_filter]
    exact List.filter_sublist df
  · rw [apply_filters_eq_filter, apply_filters_eq_filter,
      List.filter_filter]
    exact List.filter_congr (fun e _ => Bool.and_self _)
  · rw [apply_filters_reordered_eq, apply_filters_eq_filter]

/-- C6 counterexample: on the three-row view `exSummary` the median of
`affected_population` is 5, yet no value returned by `get_summary_stats`
equals 5 — the summary engine does not return the median of
`affected_population` (nor of economic loss, nor the sum of response
time). -/
theorem summary_median_affected_not_returned :
    medianQ (exSummary.map (fun e => (e.affected_population : ℚ))) =
      some 5 ∧
    ∀ kv ∈ get_summary_stats exSummary, kv.2 ≠ some 5 := by
  constructor
  · decide
  · have hs : get_summary_stats exSummary =
        [("total_events", some 3), ("major_disasters", some 0),
         ("total_affected", some 1008), ("avg_affected", some 336),
         ("total_economic_loss", some 60), ("avg_economic_loss", some 20),
         ("avg_response_time", some 3), ("median_response_time", some 2),
         ("avg_severity", some 8), ("avg_infrastructure_damage", some 0),
         ("unique_locations", some 3), ("unique_disaster_types", some 2),
         ("date_range_days", some 20)] := by
      norm_num [get_summary_stats, exSummary, evA, evB, evC, meanQ]
      refine ⟨?_, ?_, ?_, ?_⟩ <;> decide
    rw [hs]
    decide

/-- C6 (amended): `get_summary_stats` returns exactly the thirteen metrics
of its dict literal — row count, major-disaster count, sum and mean of
affected population and of economic loss, mean and median of response time,
mean severity and mean infrastructure damage, the two distinct counts, and
the date span; it does not return medians of affected population or
economic loss, nor a sum of response time.  `total_events` equals the row
count of the view and each returned sum equals the manual sum of the same
rows' values. -/
theorem summary_engine_contract (df : List Event) :
    (get_summary_stats df).map Prod.fst =
      ["total_events", "major_disasters", "total_affected", "avg_affected",
       "total_economic_loss", "avg_economic_loss", "avg_response_time",
       "median_response_time", "avg_severity", "avg_infrastructure_damage",
       "unique_locations", "unique_disaster_types", "date_range_days"] ∧
    (get_summary_stats df).lookup "total_events" =
      some (some (df.length : ℚ)) ∧
    (get_summary_stats df).lookup "total_affected" =
      some (some (df.foldr
        (fun e acc => (e.affected_population : ℚ) + acc) 0)) ∧
    (get_summary_stats df).lookup "total_economic_loss" =
      some (some (df.foldr
        (fun e acc => e.estimated_economic_loss_usd + acc) 0)) ∧
    (get_summary_stats df).lookup "major_disasters" =
      some (some ((df.filter
        (fun e => decide (e.is_major_disaster = 1))).length : ℚ)) ∧
    (get_summary_stats df).lookup "median_response_time" =
      some (medianQ (df.map (fun e => e.response_time_hours))) ∧
    (get_summary_stats df).lookup "date_range_days" =
      some (date_range_days df) := by
  refine ⟨rfl, rfl, ?_, ?_, rfl, rfl, rfl⟩
  · have h : (get_summary_stats df).lookup "total_affected" =
        some (some ((df.map (fun e => (e.affected_population : ℚ))).sum)) :=
      rfl
    rw [h, sum_map_eq_manual]
  · have h : (get_summary_stats df).lookup "total_economic_loss" =
        some (some
          ((df.map (fun e => e.estimated_economic_loss_usd)).sum)) := rfl
    rw [h, sum_map_eq_manual]

/-- C7: summarizing an empty (zero-row) view is total and returns zero for
every count and sum and the `NaN`/`NaT` sentinel (`none`) for the means, the
median, and the date-range-days metric computed from the minimum and maximum
date. -/
theorem summary_empty_view :
    get_summary_stats ([] : List Event) =
      [("total_events", some 0), ("major_disasters", some 0),
       ("total_affected", some 0), ("avg_affected", none),
       ("total_economic_loss", some 0), ("avg_economic_loss", none),
       ("avg_response_time", none), ("median_response_time", none),
       ("avg_severity", none), ("avg_infrastructure_damage", none),
       ("unique_locations", some 0), ("unique_disaster_types", some 0),
       ("date_range_days", none)] := rfl

/-- C8 counterexample: the economic-impact category of a cleaned row is the
full label `"Minor (<$1M)"`, which is not an element of the bare-name set
{Minor, Moderate, Severe, Catastrophic}; the cleaning script's labels carry
the range suffixes. -/
theorem category_label_suffix_counterexample :
    (clean_pipeline [rvalid]).map (fun c => c.economic_impact_category) =
      [some "Minor (<$1M)"] ∧
    "Minor (<$1M)" ∉ ["Minor", "Moderate", "Severe", "Catastrophic"] :=
  ⟨by decide, by decide⟩

/-- C8 (amended): every row emitted by the Cleaner has severity_category
drawn exactly from {Low, Medium, High, Critical},
economic_impact_category from {Minor (<$1M), Moderate ($1M-$10M),
Severe ($10M-$100M), Catastrophic (>$100M)}, response_category from
{Immediate (<6h), Fast (6-24h), Moderate (24-72h), Slow (>72h)}, and
population_impact_category from {Small (<1K), Medium (1K-10K),
Large (10K-100K), Very Large (>100K)} — the code's four-element label sets,
whose labels extend the spec's names with range suffixes. -/
theorem cleaned_category_labels (raw : List RawRow) :
    ∀ c ∈ clean_pipeline raw,
      (∃ s, c.severity_category = some s ∧ s ∈ severityLabels) ∧
      (∃ s, c.economic_impact_category = some s ∧ s ∈ economicLabels) ∧
      (∃ s, c.response_category = some s ∧ s ∈ responseLabels) ∧
      (∃ s, c.population_impact_category = some s ∧ s ∈ populationLabels) := by
  intro c hc
  rw [clean_eq_spec_order, spec_order_clean_eq_base, List.mem_map] at hc
  obtain ⟨t, ht, rfl⟩ := hc
  rw [List.mem_map] at ht
  obtain ⟨r, hr, rfl⟩ := ht
  obtain ⟨h1, h2, h3, h4, -⟩ := rawRowValid_split (mem_cleanedBase hr).2.2
  obtain ⟨s, hs, -, -⟩ := sevInRangeRaw_spec h1
  obtain ⟨x, hx, -⟩ := respNonnegRaw_spec h2
  obtain ⟨p, hp, -⟩ := popNonnegRaw_spec h3
  obtain ⟨y, hy, -⟩ := lossNonnegRaw_spec h4
  refine ⟨⟨categorize_severity s, ?_, categorize_severity_mem s⟩,
    ⟨categorize_economic_loss y, ?_, categorize_economic_loss_mem y⟩,
    ⟨categorize_response x, ?_, categorize_response_mem x⟩,
    ⟨categorize_population p, ?_, categorize_population_mem p⟩⟩
  · show r.severity_level.map categorize_severity =
      some (categorize_severity s)
    rw [hs]
    rfl
  · show r.estimated_economic_loss_usd.map categorize_economic_loss =
      some (categorize_economic_loss y)
    rw [hy]
    rfl
  · show r.response_time_hours.map categorize_response =
      some (categorize_response x)
    rw [hx]
    rfl
  · show r.affected_population.map categorize_population =
      some (categorize_population p)
    rw [hp]
    rfl

/-- Witness for C8 at the concrete input `rawEx`: the surviving cleaned row
carries one label of each of the four sets. -/
theorem cleaned_category_labels_witness :
    (∃ s, (addCategories (addTemporal rvalid)).severity_category = some s ∧
      s ∈ severityLabels) ∧
    (∃ s, (addCategories (addTemporal rvalid)).economic_impact_category =
      some s ∧ s ∈ economicLabels) ∧
    (∃ s, (addCategories (addTemporal rvalid)).response_category = some s ∧
      s ∈ responseLabels) ∧
    (∃ s, (addCategories (addTemporal rvalid)).population_impact_category =
      some s ∧ s ∈ populationLabels) :=
  cleaned_category_labels rawEx (addCategories (addTemporal rvalid))
    (by decide)

/-- C9: the Cleaner is idempotent on its own output — re-running the
pipeline (drop missing values, drop duplicates, drop out-of-range rows,
derive fields) on the cleaned output with the derived columns removed
reproduces the first run's rows exactly. -/
theorem cleaner_idempotent (raw : List RawRow) :
    clean_pipeline ((clean_pipeline raw).map CRow.strip) =
      clean_pipeline raw := by
  rw [strip_clean_pipeline, clean_eq_spec_order, spec_order_clean_eq_base,
    cleanedBase_idem, clean_eq_spec_order, spec_order_clean_eq_base]

/-- C10: the script derives the temporal columns before dropping
missing-value rows, duplicates, and out-of-range rows, while the spec's §4.1
algorithm derives them after those drops; because each temporal column is a
pure function of the (already parsed) date column, the two orders produce
the same final rows on every raw input. -/
theorem temporal_derivation_order_equiv (raw : List RawRow) :
    clean_pipeline raw = spec_order_clean raw :=
  clean_eq_spec_order raw

end Disasters
